import Mathlib

/-!
Shallow embedding of the book-generation pipeline of `src/app.py`
(repository Lucas-Salomao/gerador-de-livro): the state model (`BookState`),
the fallback JSON parsing helper (`safe_json_parse`), the six stage
functions, the `router`, and the engine loop that the LangGraph framework
supplies (merge of partial updates, conditional edges, termination at
`END`), together with proofs of the specified properties.

The external text generator `model.generate_content` is modelled by the
response string it returns to each stage call, and the library function
`json.loads` by an abstract function `loads : String -> Option Json`
(`none` = `json.JSONDecodeError`); both are collaborators outside the
repository.  Everything else is translated from `src/app.py`.
-/

namespace BookGen

/-- JSON values as returned by `json.loads`.  Numbers are restricted to the
integers, which is all the pipeline code ever produces or compares. -/
inductive Json where
  | null
  | bool (b : Bool)
  | num (n : Int)
  | str (s : String)
  | arr (items : List Json)
  | obj (fields : List (String × Json))
deriving Repr

/-- Python exceptions the pipeline code can raise: `state[k]` on a missing
key (`KeyError`), indexing / iterating a value of the wrong shape
(`TypeError`), and calling a string method such as `.replace` or `.get`
on a value that lacks it (`AttributeError`). -/
inductive PyErr where
  | keyError
  | typeError
  | attributeError
deriving Repr, DecidableEq

/-- One value of the `chapters` mapping: `{"title": ..., "description": ...,
"content": ...}` built at `app.py:147-149`.  `content` starts `""` and is
only ever assigned `response.text`, so it is always a string; `title` and
`description` are likewise strings for every outline entry the embedding
accepts (see `entryChapter`). -/
structure Chapter where
  title : String
  description : String
  content : String
deriving Repr, DecidableEq

/-- The `BookState` TypedDict (`app.py:62-73`).  `total=False`: every field
is optional, `none` meaning the key is absent from the dict.  `title` is
kept as raw `Json` because `updates["title"] = info.get("title", ...)`
(`app.py:103`) stores whatever JSON value the generator put under
`"title"`, not necessarily a string.  The `chapters` dict is an
association list with distinct keys (a Python dict cannot hold a key
twice; every list the stages construct has `Nodup` keys by construction). -/
structure BookState where
  theme : Option String := none
  title : Option Json := none
  genre : Option String := none
  target_audience : Option String := none
  outline : Option (List Json) := none
  chapters : Option (List (Int × Chapter)) := none
  current_chapter : Option Int := none
  status : Option String := none
  feedback : Option String := none
  export_path : Option String := none
  feedback_path : Option String := none
deriving Repr

/-- `d[k]` on the chapters dict (first — and, keys being distinct, only —
binding of `k`). -/
def dictLookup (k : Int) (d : List (Int × Chapter)) : Option Chapter :=
  (d.find? (fun p => p.1 = k)).map (fun p => p.2)

/-- `d[k] = v` on the chapters dict: overwrite in place when the key
exists (Python keeps the original position), append otherwise. -/
def dictInsert (k : Int) (v : Chapter) (d : List (Int × Chapter)) :
    List (Int × Chapter) :=
  if d.any (fun p => p.1 = k) then
    d.map (fun p => if p.1 = k then (k, v) else p)
  else d ++ [(k, v)]

/-- `updated_chapters[current]["content"] = response.text` (`app.py:199`):
assign the content of the chapter stored under key `k`. -/
def dictSetContent (k : Int) (content : String) (d : List (Int × Chapter)) :
    List (Int × Chapter) :=
  d.map (fun p => if p.1 = k then (p.1, { p.2 with content := content }) else p)

/-- The key list of the chapters dict. -/
def dictKeys (d : List (Int × Chapter)) : List Int :=
  d.map (fun p => p.1)

/-- `fields.get(k, default)` on a parsed JSON object (`info.get("title", ...)`,
`app.py:103`). -/
def pyObjGet (fields : List (String × Json)) (k : String) (default : Json) :
    Json :=
  match (fields.find? (fun p => p.1 = k)).map (fun p => p.2) with
  | some v => v
  | none => default

/-- Python's `str.startswith`, stated on the character list (slicing and
prefix tests in Python count code points, as `List Char` does). -/
def strStartsWith (s p : String) : Bool :=
  s.data.take p.data.length == p.data

/-- Python's `str.endswith`, stated on the character list. -/
def strEndsWith (s p : String) : Bool :=
  s.data.drop (s.data.length - p.data.length) == p.data

/-- Python's `str.replace` for one-character pattern and replacement (the
only form the pipeline uses: `title.replace(' ', '_')`), which is exactly
a character map. -/
def pyReplaceChar (s : String) (pat repl : Char) : String :=
  String.mk (s.data.map (fun c => if c = pat then repl else c))

/-- The code-fence stripping of `safe_json_parse` (`app.py:46-53`):
a leading fence marker of 7 characters (backtick-backtick-backtick-json)
or of 3 characters (three backticks) is dropped, and then a trailing
3-character fence when present. -/
def stripFences (text : String) : String :=
  if strStartsWith text "```json" then
    let t := text.drop 7
    if strEndsWith t "```" then t.dropRight 3 else t
  else if strStartsWith text "```" then
    let t := text.drop 3
    if strEndsWith t "```" then t.dropRight 3 else t
  else text

/-- `safe_json_parse` (`app.py:44-59`): unwrap code fences, try
`json.loads`, return the caller-supplied fallback on `JSONDecodeError`. -/
def safe_json_parse (loads : String → Option Json) (response_text : String)
    (fallback : Json) : Json :=
  match loads (stripFences response_text) with
  | some j => j
  | none => fallback

/-- `get_book_info` (`app.py:76-108`).  The three input fields are read with
`state.get(k, default)`; the generated title is parsed with
`safe_json_parse` (dict fallback `{"title": f"Livro sobre {theme}"}`) and
extracted with `info.get("title", ...)` — which raises `AttributeError`
when the parsed JSON is not an object.  `resp` is the generator's
response text for this call. -/
def get_book_info (loads : String → Option Json) (resp : String)
    (state : BookState) : Except PyErr BookState :=
  let theme := state.theme.getD "Um tema genérico"
  let genre := state.genre.getD "Ficção"
  let target_audience := state.target_audience.getD "Adultos"
  let fallbackTitle : Json := Json.str ("Livro sobre " ++ theme)
  match safe_json_parse loads resp (Json.obj [("title", fallbackTitle)]) with
  | Json.obj fields =>
      Except.ok
        { theme := some theme
          genre := some genre
          target_audience := some target_audience
          title := some (pyObjGet fields "title" fallbackTitle)
          status := some "book_info_collected" }
  | _ => Except.error PyErr.attributeError

/-- The fallback outline of `create_outline` (`app.py:131-134`): a single
introduction chapter derived from the theme. -/
def fallbackOutline (theme : String) : List Json :=
  [Json.obj
    [("chapter_number", Json.num 1),
     ("chapter_title", Json.str "Introdução"),
     ("chapter_description",
      Json.str ("Exploração inicial do tema " ++ theme ++ "."))]]

/-- The padding loop of `create_outline` (`app.py:136-143`): for
`i in range(k+1, 6)` append a placeholder chapter `Capítulo i` whose
description is derived from the theme (`k` = length of the parsed list,
evaluated once when the range is built). -/
def padEntries (theme : String) (k : Nat) : List Json :=
  (List.range' (k + 1) (5 - k)).map (fun i : Nat =>
    Json.obj
      [("chapter_number", Json.num (Int.ofNat i)),
       ("chapter_title", Json.str ("Capítulo " ++ toString i)),
       ("chapter_description",
        Json.str ("Continuação da exploração de " ++ theme ++ "."))])

/-- One step of the chapters dict comprehension (`app.py:147-150`):
`item["chapter_number"]` / `item["chapter_title"]` /
`item["chapter_description"]` (missing key = `KeyError`, non-object item =
`TypeError`).  Deviation recorded once for the whole embedding: an entry
whose `chapter_number` is not an integer or whose title or description is
not a string is rejected here with `TypeError`, whereas Python stores it
and raises only in a later stage (a non-integer key can never equal the
integer cursor, so `write_chapter` raises `KeyError`; a non-string
description fails the slice `description[:100]` in `review_and_edit`).
Either way no such run reaches the export stages. -/
def entryChapter (item : Json) : Except PyErr (Int × Chapter) :=
  match item with
  | Json.obj fields =>
      match (fields.find? (fun p => p.1 = "chapter_number")).map (fun p => p.2),
            (fields.find? (fun p => p.1 = "chapter_title")).map (fun p => p.2),
            (fields.find? (fun p => p.1 = "chapter_description")).map
              (fun p => p.2) with
      | some (Json.num n), some (Json.str t), some (Json.str dsc) =>
          Except.ok (n, { title := t, description := dsc, content := "" })
      | none, _, _ => Except.error PyErr.keyError
      | _, none, _ => Except.error PyErr.keyError
      | _, _, none => Except.error PyErr.keyError
      | _, _, _ => Except.error PyErr.typeError
  | _ => Except.error PyErr.typeError

/-- The dict comprehension of `create_outline` (`app.py:147-150`), item by
item in list order (a later duplicate `chapter_number` overwrites the
earlier entry, exactly as in a Python dict comprehension). -/
def chaptersOfItems : List Json → List (Int × Chapter) →
    Except PyErr (List (Int × Chapter))
  | [], d => Except.ok d
  | item :: rest, d =>
    match entryChapter item with
    | Except.ok p => chaptersOfItems rest (dictInsert p.1 p.2 d)
    | Except.error e => Except.error e

/-- `create_outline` (`app.py:110-156`).  The prompt f-string reads
`state['theme']`, `state['title']`, `state['genre']`,
`state['target_audience']` (each a `KeyError` when absent); the response
is parsed with `safe_json_parse` (fallback `fallbackOutline`), padded to
five entries when shorter, stored as `outline`, and turned into the
`chapters` dict; `current_chapter` starts at 1.  A parse result that is
not a JSON list raises while the chapter dict is built. -/
def create_outline (loads : String → Option Json) (resp : String)
    (state : BookState) : Except PyErr BookState :=
  match state.theme, state.title, state.genre, state.target_audience with
  | some theme, some _, some _, some _ =>
    (match safe_json_parse loads resp (Json.arr (fallbackOutline theme)) with
     | Json.arr outline_data =>
       let items :=
         if outline_data.length < 5 then
           outline_data ++ padEntries theme outline_data.length
         else outline_data
       match chaptersOfItems items [] with
       | Except.ok chapters =>
           Except.ok
             { outline := some items
               chapters := some chapters
               current_chapter := some 1
               status := some "outline_created" }
       | Except.error e => Except.error e
     | _ => Except.error PyErr.typeError)
  | _, _, _, _ => Except.error PyErr.keyError

/-- `write_chapter` (`app.py:158-210`).  The first component of the result
is the partial update the stage returns; the second is the value of the
caller's state object AFTER the call: `state["chapters"].copy()`
(`app.py:198`) is a SHALLOW copy, so the assignment
`updated_chapters[current]["content"] = response.text` writes into the
very chapter dict the input state still holds — the caller's
`chapters[current]["content"]` changes too.  After the chapter lookup
(`app.py:167`) the prompt f-string reads `state['title']`,
`state['theme']`, `state['genre']` and `state['target_audience']` with
subscripts (`app.py:185-186`), each a `KeyError` when absent.  The
`prev_content` block (`app.py:176-182`) only contributes to the prompt
(dict `.get` with a default never raises and `content` is always a
string, so the slice is total) and is therefore not modelled. -/
def write_chapter (resp : String) (state : BookState) :
    Except PyErr (BookState × BookState) :=
  match state.current_chapter, state.chapters with
  | some current, some chapters =>
    if current > (chapters.length : Int) then
      Except.ok ({ status := some "all_chapters_written" }, state)
    else
      match dictLookup current chapters with
      | none => Except.error PyErr.keyError
      | some _chapter_info =>
        match state.title, state.theme, state.genre,
            state.target_audience with
        | some _, some _, some _, some _ =>
          let updated_chapters := dictSetContent current resp chapters
          let next := current + 1
          let newStatus :=
            if next ≤ (chapters.length : Int) then "chapter_written"
            else "all_chapters_written"
          Except.ok
            ({ chapters := some updated_chapters
               current_chapter := some next
               status := some newStatus },
             { state with chapters := some updated_chapters })
        | _, _, _, _ => Except.error PyErr.keyError
  | _, _ => Except.error PyErr.keyError

/-- `review_and_edit` (`app.py:212-242`).  The summary f-string reads
`theme`, `title`, `genre`, `target_audience` and iterates
`sorted(state["chapters"].items())`; all of that only feeds the prompt
(chapter descriptions are strings in the embedding, so the slice
`description[:100]` is total).  The update is the generated feedback plus
the new status. -/
def review_and_edit (resp : String) (state : BookState) :
    Except PyErr BookState :=
  match state.theme, state.title, state.genre, state.target_audience,
      state.chapters with
  | some _, some _, some _, some _, some _ =>
      Except.ok { feedback := some resp, status := some "reviewed" }
  | _, _, _, _, _ => Except.error PyErr.keyError

/-- `export_feedback` (`app.py:244-255`): the file path is
`title.replace(' ', '_') + "_feedback.txt"` (`.replace` raises
`AttributeError` on a non-string title) and `state["feedback"]` is
written to it (the file write itself is an external effect). -/
def export_feedback (state : BookState) : Except PyErr BookState :=
  match state.title with
  | none => Except.error PyErr.keyError
  | some titleJ =>
    match titleJ with
    | Json.str title =>
      (match state.feedback with
       | none => Except.error PyErr.keyError
       | some _ =>
         Except.ok
           { feedback_path :=
               some (pyReplaceChar title ' ' '_' ++ "_feedback.txt")
             status := some "feedback_exported" })
    | _ => Except.error PyErr.attributeError

/-- `export_book` (`app.py:257-277`): the document renders `title`,
`theme`, `genre`, `target_audience` and every chapter (external effects);
the file path is `title.replace(' ', '_') + ".docx"`. -/
def export_book (state : BookState) : Except PyErr BookState :=
  match state.title, state.theme, state.genre, state.target_audience,
      state.chapters with
  | some titleJ, some _, some _, some _, some _ =>
    (match titleJ with
     | Json.str title =>
       Except.ok
         { export_path := some (pyReplaceChar title ' ' '_' ++ ".docx")
           status := some "exported" }
     | _ => Except.error PyErr.attributeError)
  | _, _, _, _, _ => Except.error PyErr.keyError

/-- LangGraph's terminal sentinel `END`. -/
def END : String := "__end__"

/-- The `status_map` dict literal of `router` (`app.py:281-290`). -/
def status_map : List (String × String) :=
  [("start", "get_book_info"),
   ("book_info_collected", "create_outline"),
   ("outline_created", "write_chapter"),
   ("chapter_written", "write_chapter"),
   ("all_chapters_written", "review_and_edit"),
   ("reviewed", "export_feedback"),
   ("feedback_exported", "export_book"),
   ("exported", END)]

/-- `router` (`app.py:279-293`): `status_map.get(state["status"], END)`.
Reading `state["status"]` raises `KeyError` when the key is absent;
otherwise the lookup is total with default `END`. -/
def router (state : BookState) : Except PyErr String :=
  match state.status with
  | none => Except.error PyErr.keyError
  | some status =>
    Except.ok
      (match (status_map.find? (fun p => p.1 = status)).map (fun p => p.2) with
       | some next => next
       | none => END)

/-- One field of LangGraph's state merge: a key present in the partial
update overwrites the running state's value (last-writer-wins per field). -/
def mergeField {α : Type} (old upd : Option α) : Option α :=
  match upd with
  | some v => some v
  | none => old

/-- LangGraph's merge of a stage's partial update into the running state. -/
def merge (s u : BookState) : BookState :=
  { theme := mergeField s.theme u.theme
    title := mergeField s.title u.title
    genre := mergeField s.genre u.genre
    target_audience := mergeField s.target_audience u.target_audience
    outline := mergeField s.outline u.outline
    chapters := mergeField s.chapters u.chapters
    current_chapter := mergeField s.current_chapter u.current_chapter
    status := mergeField s.status u.status
    feedback := mergeField s.feedback u.feedback
    export_path := mergeField s.export_path u.export_path
    feedback_path := mergeField s.feedback_path u.feedback_path }

/-- Execute the stage the router selected on the current state and merge
its partial update (`workflow.add_node` + `add_conditional_edges`,
`app.py:300-314`).  `resp` is the generator response available to this
stage execution.  For `write_chapter` the update is merged into the
caller-side state AFTER the call (second component), which is how the
shallow-copy aliasing reaches the engine's copy of the state. -/
def exec_stage (loads : String → Option Json) (name resp : String)
    (s : BookState) : Except PyErr BookState :=
  match name with
  | "get_book_info" => (get_book_info loads resp s).map (merge s)
  | "create_outline" => (create_outline loads resp s).map (merge s)
  | "write_chapter" => (write_chapter resp s).map (fun p => merge p.2 p.1)
  | "review_and_edit" => (review_and_edit resp s).map (merge s)
  | "export_feedback" => (export_feedback s).map (merge s)
  | "export_book" => (export_book s).map (merge s)
  | _ => Except.error PyErr.keyError

/-- Outcome of driving the compiled graph: normal termination at `END`
with the final state and the list of stage executions, fuel exhaustion,
or a Python exception raised by some stage (which aborts the run). -/
inductive RunOutcome where
  | finished (final : BookState) (trace : List String)
  | outOfFuel (s : BookState) (trace : List String)
  | failed (e : PyErr) (trace : List String)
deriving Repr

/-- Record one more executed stage in front of an outcome's trace. -/
def RunOutcome.prepend (name : String) : RunOutcome → RunOutcome
  | RunOutcome.finished f tr => RunOutcome.finished f (name :: tr)
  | RunOutcome.outOfFuel s tr => RunOutcome.outOfFuel s (name :: tr)
  | RunOutcome.failed e tr => RunOutcome.failed e (name :: tr)

/-- Record a block of executed stages in front of an outcome's trace. -/
def RunOutcome.prependAll (names : List String) (o : RunOutcome) : RunOutcome :=
  names.foldr RunOutcome.prepend o

/-- The engine loop of the compiled LangGraph workflow: ask the router,
stop at `END`, otherwise execute the selected stage with the `k`-th
generator response and recurse on the merged state.  `fuel` only bounds
the recursion; every theorem supplies enough of it. -/
def run (loads : String → Option Json) (gen : Nat → String) :
    Nat → Nat → BookState → RunOutcome
  | 0, _, s => RunOutcome.outOfFuel s []
  | fuel + 1, k, s =>
    match router s with
    | Except.error e => RunOutcome.failed e []
    | Except.ok next =>
      if next = END then RunOutcome.finished s []
      else
        match exec_stage loads next (gen k) s with
        | Except.error e => RunOutcome.failed e [next]
        | Except.ok s' => (run loads gen fuel (k + 1) s').prepend next

/-- The run ended normally with the given status and stage trace. -/
def FinishedAt (o : RunOutcome) (status : String) (trace : List String) :
    Prop :=
  match o with
  | RunOutcome.finished f tr => f.status = some status ∧ tr = trace
  | _ => False

/-- The next-stage name the router's table yields for a status string. -/
def routerNext (st : String) : String :=
  match (status_map.find? (fun p => p.1 = st)).map (fun p => p.2) with
  | some next => next
  | none => END

/-! Concrete collaborators and states used by witnesses and
counterexamples. -/

/-- A generator whose output never parses as JSON. -/
def loadsNone : String → Option Json := fun _ => none

/-- A scripted generator returning the same unparseable text every call. -/
def genX : Nat → String := fun _ => "x"

/-- An initial state as `main` builds it (`app.py:326-332`). -/
def sStart : BookState := { theme := some "Energia Solar", status := some "start" }

/-- A state right after info collection, as input for outline witnesses. -/
def sInfo : BookState :=
  { theme := some "Tema", title := some (Json.str "Titulo"),
    genre := some "G", target_audience := some "A",
    status := some "book_info_collected" }

/-- A well-formed two-entry outline as the generator could return it. -/
def ents2 : List Json :=
  [Json.obj
    [("chapter_number", Json.num 1), ("chapter_title", Json.str "Um"),
     ("chapter_description", Json.str "D1")],
   Json.obj
    [("chapter_number", Json.num 2), ("chapter_title", Json.str "Dois"),
     ("chapter_description", Json.str "D2")]]

/-- `json.loads` behaviour when the generator answers `"OUT"` with the
two-entry outline. -/
def loads2 : String → Option Json := fun s =>
  if s = "OUT" then some (Json.arr ents2) else none

/-- A well-formed outline of 21 entries numbered 1..21. -/
def ents21 : List Json :=
  (List.range' 1 21).map (fun i : Nat =>
    Json.obj
      [("chapter_number", Json.num (Int.ofNat i)),
       ("chapter_title", Json.str "T"),
       ("chapter_description", Json.str "D")])

/-- `json.loads` behaviour when the generator answers `"OUT"` with the
21-entry outline. -/
def loads21 : String → Option Json := fun s =>
  if s = "OUT" then some (Json.arr ents21) else none

/-- A well-formed outline of five entries numbered 2..6 instead of 1..5
(valid JSON the generator can produce). -/
def entsShifted : List Json :=
  (List.range' 2 5).map (fun i : Nat =>
    Json.obj
      [("chapter_number", Json.num (Int.ofNat i)),
       ("chapter_title", Json.str "T"),
       ("chapter_description", Json.str "D")])

/-- `json.loads` behaviour when the generator answers `"OUT"` with the
shifted outline. -/
def loadsShifted : String → Option Json := fun s =>
  if s = "OUT" then some (Json.arr entsShifted) else none

/-- A scripted generator: unparseable title response, then `"OUT"` for the
outline request. -/
def genShifted : Nat → String := fun k => if k = 1 then "OUT" else "x"

/-- A one-chapter book state about to be written (cursor on chapter 1). -/
def sOneChapter : BookState :=
  { theme := some "t", title := some (Json.str "T"), genre := some "g",
    target_audience := some "a",
    chapters := some [(1, { title := "C1", description := "D1", content := "" })],
    current_chapter := some 1, status := some "outline_created" }

/-- A two-chapter book state about to be written (cursor on chapter 1). -/
def sTwoChapters : BookState :=
  { theme := some "t", title := some (Json.str "T"), genre := some "g",
    target_audience := some "a",
    chapters := some
      [(1, { title := "C1", description := "D1", content := "" }),
       (2, { title := "C2", description := "D2", content := "" })],
    current_chapter := some 1, status := some "outline_created" }

/-- A state whose cursor has moved past the last chapter. -/
def sPastEnd : BookState :=
  { chapters := some [(1, { title := "C1", description := "D1", content := "x" })],
    current_chapter := some 2, status := some "chapter_written" }

/-- A state whose title contains filesystem-invalid characters. -/
def sBadTitle : BookState :=
  { title := some (Json.str "A: Test?"), feedback := some "fb" }

/-- The update `get_book_info` computes on `sStart` with an unparseable
generator response. -/
def uInfo : BookState :=
  (get_book_info loadsNone "x" sStart).toOption.getD {}

/-- The update `create_outline` computes on `sInfo` when the generator
returns the two-entry outline. -/
def uOut2 : BookState :=
  (create_outline loads2 "OUT" sInfo).toOption.getD {}

/-- The update/post-state pair `write_chapter` computes on `sOneChapter`. -/
def pWrite1 : BookState × BookState :=
  (write_chapter "BODY" sOneChapter).toOption.getD ({}, {})

/-- The outline update computed in the all-fallback run that starts from
`sStart` (every generator response unparseable). -/
def uOutFall : BookState :=
  (create_outline loadsNone "x" (merge sStart uInfo)).toOption.getD {}

/-- The chapters dict of the all-fallback run. -/
def dFall : List (Int × Chapter) := uOutFall.chapters.getD []

/-! Helper lemmas. -/

/-- The router only reads `state["status"]`: on any state whose status is
present it returns the table lookup. -/
theorem router_eval (s : BookState) (st : String) (h : s.status = some st) :
    router s = Except.ok (routerNext st) := by
  simp [router, routerNext, h]

/-! Claim theorems. -/

/-- Claim C2: the router is a pure total function of the state's status:
it maps the eight known statuses by the fixed table and every other
status string to the terminal value `END`, without failing. -/
theorem router_fixed_table :
    (∀ (s : BookState) (st : String), s.status = some st →
      router s = Except.ok
        (if st = "start" then "get_book_info"
         else if st = "book_info_collected" then "create_outline"
         else if st = "outline_created" then "write_chapter"
         else if st = "chapter_written" then "write_chapter"
         else if st = "all_chapters_written" then "review_and_edit"
         else if st = "reviewed" then "export_feedback"
         else if st = "feedback_exported" then "export_book"
         else if st = "exported" then END
         else END)) ∧
    (∀ s₁ s₂ : BookState, s₁.status = s₂.status → router s₁ = router s₂) := by
  constructor
  · intro s st h
    rw [router_eval s st h]
    by_cases h1 : st = "start"
    · simp [h1, routerNext, status_map]
    by_cases h2 : st = "book_info_collected"
    · simp [h1, h2, routerNext, status_map]
    by_cases h3 : st = "outline_created"
    · simp [h1, h2, h3, routerNext, status_map]
    by_cases h4 : st = "chapter_written"
    · simp [h1, h2, h3, h4, routerNext, status_map]
    by_cases h5 : st = "all_chapters_written"
    · simp [h1, h2, h3, h4, h5, routerNext, status_map]
    by_cases h6 : st = "reviewed"
    · simp [h1, h2, h3, h4, h5, h6, routerNext, status_map]
    by_cases h7 : st = "feedback_exported"
    · simp [h1, h2, h3, h4, h5, h6, h7, routerNext, status_map]
    by_cases h8 : st = "exported"
    · simp [h1, h2, h3, h4, h5, h6, h7, h8, routerNext, status_map]
    · simp [h1, h2, h3, h4, h5, h6, h7, h8, routerNext, status_map,
        Ne.symm h1, Ne.symm h2, Ne.symm h3, Ne.symm h4, Ne.symm h5,
        Ne.symm h6, Ne.symm h7, Ne.symm h8]
  · intro s₁ s₂ h
    cases hs : s₂.status with
    | none => simp [router, h ▸ hs, hs]
    | some st => simp [router, h ▸ hs, hs]

/-- Witness for C2: the table at a known status and at an unknown one. -/
theorem router_fixed_table_witness :
    router { status := some "start" } = Except.ok "get_book_info" ∧
    router { status := some "weird" } = Except.ok END := by
  constructor
  · rw [router_fixed_table.1 { status := some "start" } "start" rfl]; rfl
  · rw [router_fixed_table.1 { status := some "weird" } "weird" rfl]; rfl

/-- Claim C6: on any generator output whose text — after unwrapping code
fences — does not parse as JSON, `get_book_info` does not raise: it
substitutes the fallback title `"Livro sobre " + theme` and still returns
an update with status `book_info_collected` (and the defaulted inputs). -/
theorem get_book_info_parse_fallback :
    ∀ (loads : String → Option Json) (resp : String) (s : BookState),
      loads (stripFences resp) = none →
      get_book_info loads resp s = Except.ok
        { theme := some (s.theme.getD "Um tema genérico")
          genre := some (s.genre.getD "Ficção")
          target_audience := some (s.target_audience.getD "Adultos")
          title := some (Json.str
            ("Livro sobre " ++ s.theme.getD "Um tema genérico"))
          status := some "book_info_collected" } := by
  intro loads resp s h
  simp [get_book_info, safe_json_parse, h, pyObjGet]

/-- Witness for C6: a code-fenced refusal text falls back on `sStart`. -/
theorem get_book_info_parse_fallback_witness :
    get_book_info loadsNone "```json I cannot help```" sStart = Except.ok
      { theme := some "Energia Solar", genre := some "Ficção",
        target_audience := some "Adultos",
        title := some (Json.str "Livro sobre Energia Solar"),
        status := some "book_info_collected" } :=
  get_book_info_parse_fallback loadsNone "```json I cannot help```" sStart rfl

/-- Claim C10: whatever update `get_book_info` returns always carries
`theme`, `genre` and `target_audience`, with the fixed defaults
substituted for fields absent from the input state and present values
passed through unchanged. -/
theorem get_book_info_input_defaults :
    ∀ (loads : String → Option Json) (resp : String) (s u : BookState),
      get_book_info loads resp s = Except.ok u →
      u.theme = some (s.theme.getD "Um tema genérico") ∧
      u.genre = some (s.genre.getD "Ficção") ∧
      u.target_audience = some (s.target_audience.getD "Adultos") := by
  intro loads resp s u h
  simp only [get_book_info] at h
  split at h
  · cases h
    exact ⟨rfl, rfl, rfl⟩
  · cases h

/-- Witness for C10: defaults on `sStart`, which fixes only the theme. -/
theorem get_book_info_input_defaults_witness :
    uInfo.theme = some (sStart.theme.getD "Um tema genérico") ∧
    uInfo.genre = some (sStart.genre.getD "Ficção") ∧
    uInfo.target_audience = some (sStart.target_audience.getD "Adultos") :=
  get_book_info_input_defaults loadsNone "x" sStart uInfo rfl

/-- Claim C9: with the cursor past the last chapter, `write_chapter`
returns exactly the single-field update `status = all_chapters_written`,
leaves the caller's state untouched, and never consults the generator
response or indexes the chapters dict. -/
theorem write_chapter_past_end_frame :
    ∀ (resp : String) (s : BookState) (d : List (Int × Chapter)) (c : Int),
      s.current_chapter = some c → s.chapters = some d →
      (d.length : Int) < c →
      write_chapter resp s =
        Except.ok ({ status := some "all_chapters_written" }, s) ∧
      ∀ resp', write_chapter resp' s = write_chapter resp s := by
  intro resp s d c h1 h2 h3
  have hwc : ∀ r : String,
      write_chapter r s =
        Except.ok ({ status := some "all_chapters_written" }, s) := by
    intro r
    simp only [write_chapter, h1, h2]
    rw [if_pos h3]
  exact ⟨hwc resp, fun r => (hwc r).trans (hwc resp).symm⟩

/-- Witness for C9: one chapter, cursor at 2. -/
theorem write_chapter_past_end_frame_witness :
    write_chapter "x" sPastEnd =
      Except.ok ({ status := some "all_chapters_written" }, sPastEnd) :=
  (write_chapter_past_end_frame "x" sPastEnd
    [(1, { title := "C1", description := "D1", content := "x" })] 2
    rfl rfl (by decide)).1

/-- Updating the content stored under a key leaves the rest of the chapter
record as the lookup found it. -/
theorem dictLookup_setContent_self (k : Int) (content : String)
    (d : List (Int × Chapter)) (ch : Chapter)
    (h : dictLookup k d = some ch) :
    dictLookup k (dictSetContent k content d) =
      some { ch with content := content } := by
  induction d with
  | nil => simp [dictLookup] at h
  | cons p rest ih =>
    by_cases hk : p.1 = k
    · simp [dictLookup, dictSetContent, List.find?, hk] at h ⊢
      rw [h]
      exact ⟨rfl, rfl⟩
    · simp only [dictLookup, dictSetContent, List.map_cons, if_neg hk,
        List.find?, decide_eq_false hk] at h ⊢
      exact ih h

/-- Claim C4: with the cursor on an existing chapter (and the four fields
the chapter prompt reads present, as they are in every state the prior
stages produce), `write_chapter` fills that chapter's content and
advances the cursor by one; on the last chapter
(`current = len(chapters)`) the status becomes `all_chapters_written`
and the cursor becomes `len+1` and never more, otherwise the status is
`chapter_written`. -/
theorem write_chapter_advances :
    ∀ (resp : String) (s : BookState) (d : List (Int × Chapter)) (c : Int)
      (ch : Chapter) (tJ : Json) (th g a : String),
      s.current_chapter = some c → s.chapters = some d →
      dictLookup c d = some ch →
      s.title = some tJ → s.theme = some th → s.genre = some g →
      s.target_audience = some a →
      ((c = (d.length : Int) →
          write_chapter resp s = Except.ok
            ({ chapters := some (dictSetContent c resp d)
               current_chapter := some (c + 1)
               status := some "all_chapters_written" },
             { s with chapters := some (dictSetContent c resp d) }) ∧
          dictLookup c (dictSetContent c resp d) =
            some { ch with content := resp } ∧
          c + 1 = (d.length : Int) + 1) ∧
       (c < (d.length : Int) →
          write_chapter resp s = Except.ok
            ({ chapters := some (dictSetContent c resp d)
               current_chapter := some (c + 1)
               status := some "chapter_written" },
             { s with chapters := some (dictSetContent c resp d) }) ∧
          dictLookup c (dictSetContent c resp d) =
            some { ch with content := resp })) := by
  intro resp s d c ch tJ th g a h1 h2 hl hti hth hg ha
  constructor
  · intro hc
    refine ⟨?_, dictLookup_setContent_self c resp d ch hl, by omega⟩
    simp only [write_chapter, h1, h2, hti, hth, hg, ha]
    rw [if_neg (by omega), hl]
    rw [if_neg (by omega)]
  · intro hc
    refine ⟨?_, dictLookup_setContent_self c resp d ch hl⟩
    simp only [write_chapter, h1, h2, hti, hth, hg, ha]
    rw [if_neg (by omega), hl]
    rw [if_pos (by omega)]

/-- Witness for C4: writing the single chapter of `sOneChapter`. -/
theorem write_chapter_advances_witness :
    write_chapter "BODY" sOneChapter = Except.ok
      ({ chapters := some (dictSetContent 1 "BODY"
           [(1, { title := "C1", description := "D1", content := "" })])
         current_chapter := some 2
         status := some "all_chapters_written" },
       { sOneChapter with
         chapters := some (dictSetContent 1 "BODY"
           [(1, { title := "C1", description := "D1", content := "" })]) }) :=
  ((write_chapter_advances "BODY" sOneChapter
      [(1, { title := "C1", description := "D1", content := "" })] 1
      { title := "C1", description := "D1", content := "" }
      (Json.str "T") "t" "g" "a"
      rfl rfl rfl rfl rfl rfl rfl).1 (by decide)).1

/-- Claim C7 (amended): the base filenames of both exports are exactly the
title with spaces replaced by underscores, plus the fixed suffixes;
no filesystem-invalid character is stripped or rejected. -/
theorem export_filenames_underscore_only :
    ∀ (s : BookState) (t : String),
      s.title = some (Json.str t) →
      ((∀ f, s.feedback = some f →
          export_feedback s = Except.ok
            { feedback_path :=
                some (pyReplaceChar t ' ' '_' ++ "_feedback.txt")
              status := some "feedback_exported" }) ∧
       (∀ th g a d, s.theme = some th → s.genre = some g →
          s.target_audience = some a → s.chapters = some d →
          export_book s = Except.ok
            { export_path := some (pyReplaceChar t ' ' '_' ++ ".docx")
              status := some "exported" })) := by
  intro s t h
  constructor
  · intro f hf
    simp [export_feedback, h, hf]
  · intro th g a d h1 h2 h3 h4
    simp [export_book, h, h1, h2, h3, h4]

/-- Counterexample for C7 as stated: the title `A: Test?` produces a
feedback filename that still contains `:` and `?`. -/
theorem export_filename_keeps_invalid_chars :
    export_feedback sBadTitle = Except.ok
      { feedback_path := some "A:_Test?_feedback.txt"
        status := some "feedback_exported" } ∧
    ':' ∈ "A:_Test?_feedback.txt".data ∧ '?' ∈ "A:_Test?_feedback.txt".data :=
  ⟨rfl, by decide, by decide⟩

/-- Witness for the amended C7: both export paths at concrete states. -/
theorem export_filenames_underscore_only_witness :
    export_feedback sBadTitle = Except.ok
      { feedback_path :=
          some (pyReplaceChar "A: Test?" ' ' '_' ++ "_feedback.txt")
        status := some "feedback_exported" } ∧
    export_book sOneChapter = Except.ok
      { export_path := some (pyReplaceChar "T" ' ' '_' ++ ".docx")
        status := some "exported" } :=
  ⟨(export_filenames_underscore_only sBadTitle "A: Test?" rfl).1 "fb" rfl,
   (export_filenames_underscore_only sOneChapter "T" rfl).2 "t" "g" "a"
     [(1, { title := "C1", description := "D1", content := "" })]
     rfl rfl rfl rfl⟩

/-- Claim C8 (code bug): `state["chapters"].copy()` is a shallow copy, so
`write_chapter` writes the generated text into the chapter record the
input state still holds — the caller's state is NOT left unmodified.
On `sOneChapter` the caller's `chapters[1].content` becomes the response
text, so the post-call input state differs from the pre-call one. -/
theorem write_chapter_mutates_input :
    (write_chapter "BODY" sOneChapter).map (fun p => p.2.chapters) =
      Except.ok (some
        [(1, { title := "C1", description := "D1", content := "BODY" })]) ∧
    sOneChapter.chapters =
      some [(1, { title := "C1", description := "D1", content := "" })] ∧
    ∀ p, write_chapter "BODY" sOneChapter = Except.ok p →
      p.2 ≠ sOneChapter := by
  refine ⟨rfl, rfl, ?_⟩
  intro p h hne
  have h3 : (write_chapter "BODY" sOneChapter).map
      (fun q : BookState × BookState => q.2.chapters) =
      Except.ok sOneChapter.chapters := by
    rw [h]
    simp [Except.map, hne]
  have h4 := h3.symm.trans (rfl :
    (write_chapter "BODY" sOneChapter).map
      (fun q : BookState × BookState => q.2.chapters) =
      Except.ok (some
        [(1, { title := "C1", description := "D1", content := "BODY" })]))
  exact absurd (Except.ok.inj h4) (by decide)

/-- The padding block always brings the outline length up to exactly 5. -/
theorem padEntries_length (theme : String) (k : Nat) :
    (padEntries theme k).length = 5 - k := by
  unfold padEntries
  rw [List.length_map, List.length_range']

/-- Claim C3 (amended): every outline `create_outline` stores has at least
5 entries; when the parsed generator list is shorter the missing entries
up to 5 are the synthesized placeholders of `padEntries` (generic title
`Capítulo i`, description derived from the theme).  No upper bound is
enforced. -/
theorem create_outline_min_five :
    ∀ (loads : String → Option Json) (resp : String) (s u : BookState),
      create_outline loads resp s = Except.ok u →
      (∃ l, u.outline = some l ∧ 5 ≤ l.length) ∧
      (∀ th items, s.theme = some th →
        loads (stripFences resp) = some (Json.arr items) →
        items.length < 5 →
        u.outline = some (items ++ padEntries th items.length)) := by
  intro loads resp s u h
  simp only [create_outline] at h
  split at h
  · rename_i theme t0 g0 a0 hth hti hg ha
    split at h
    · rename_i outline_data hparse
      split at h
      · rename_i chapters hchap
        cases h
        constructor
        · refine ⟨_, rfl, ?_⟩
          by_cases hlen : outline_data.length < 5
          · rw [if_pos hlen]
            rw [List.length_append, padEntries_length]
            omega
          · rw [if_neg hlen]
            omega
        · intro th items hth' hparse' hlt
          have hthm : th = theme := by
            rw [hth] at hth'
            exact (Option.some.inj hth').symm
          have hitems : items = outline_data := by
            have : safe_json_parse loads resp
                (Json.arr (fallbackOutline theme)) = Json.arr items := by
              simp [safe_json_parse, hparse']
            rw [hparse] at this
            exact (Json.arr.inj this).symm
          subst hthm
          subst hitems
          simp only [if_pos hlt]
      · cases h
    · cases h
  · cases h

/-- Counterexample for C3 as stated: a valid 21-entry generator list is
stored as a 21-entry outline — more than the claimed maximum of 20. -/
theorem create_outline_stores_21_chapters :
    (create_outline loads21 "OUT" sInfo).map
        (fun u => u.outline.map List.length) =
      Except.ok (some 21) ∧ 20 < 21 :=
  ⟨rfl, by decide⟩

/-- Witness for the amended C3: a two-entry generator list is padded with
the placeholder chapters 3..5. -/
theorem create_outline_min_five_witness :
    uOut2.outline = some (ents2 ++ padEntries "Tema" 2) ∧
    5 ≤ (ents2 ++ padEntries "Tema" 2).length :=
  ⟨(create_outline_min_five loads2 "OUT" sInfo uOut2 rfl).2 "Tema" ents2
      rfl rfl (by decide),
   by decide⟩

/-- Overwriting an existing key's value in place does not change the key
list of the chapters dict. -/
theorem dictKeys_replace (k : Int) (v : Chapter) (d : List (Int × Chapter)) :
    dictKeys (d.map (fun p => if p.1 = k then (k, v) else p)) = dictKeys d := by
  unfold dictKeys
  rw [List.map_map]
  apply List.map_congr_left
  intro p _
  by_cases hpk : p.1 = k
  · simp [hpk]
  · simp [hpk]

/-- Setting a chapter's content does not change the key list. -/
theorem dictKeys_setContent (k : Int) (c : String)
    (d : List (Int × Chapter)) :
    dictKeys (dictSetContent k c d) = dictKeys d := by
  unfold dictKeys dictSetContent
  rw [List.map_map]
  apply List.map_congr_left
  intro p _
  by_cases hpk : p.1 = k
  · simp [hpk]
  · simp [hpk]

/-- Membership in the key list after a dict assignment. -/
theorem mem_dictKeys_insert (k' k : Int) (v : Chapter)
    (d : List (Int × Chapter)) :
    k' ∈ dictKeys (dictInsert k v d) ↔ k' ∈ dictKeys d ∨ k' = k := by
  unfold dictInsert
  split
  · rename_i hany
    rw [dictKeys_replace]
    constructor
    · exact Or.inl
    · rintro (h | rfl)
      · exact h
      · rw [List.any_eq_true] at hany
        obtain ⟨p, hp, hpk⟩ := hany
        have hpk' : p.1 = k' := by simpa using hpk
        exact hpk' ▸ List.mem_map_of_mem _ hp
  · unfold dictKeys
    rw [List.map_append]
    simp [List.mem_append]

/-- A dict assignment preserves distinctness of the key list. -/
theorem nodup_dictKeys_insert (k : Int) (v : Chapter)
    (d : List (Int × Chapter)) (h : (dictKeys d).Nodup) :
    (dictKeys (dictInsert k v d)).Nodup := by
  unfold dictInsert
  split
  · rename_i hany
    rw [dictKeys_replace]
    exact h
  · rename_i hany
    unfold dictKeys
    rw [List.map_append]
    rw [List.nodup_append]
    refine ⟨h, List.nodup_singleton k, ?_⟩
    intro a ha hb
    simp only [List.map_cons, List.map_nil, List.mem_singleton] at hb
    subst hb
    rw [List.any_eq_true] at hany
    obtain ⟨p, hp, rfl⟩ := List.mem_map.1 ha
    exact hany ⟨p, hp, by simp⟩

/-- Keys of the dict built by the chapter comprehension: exactly the keys
already present plus the `chapter_number` of every accepted entry. -/
theorem chaptersOfItems_keys :
    ∀ (items : List Json) (init d : List (Int × Chapter)),
      chaptersOfItems items init = Except.ok d →
      ((dictKeys init).Nodup → (dictKeys d).Nodup) ∧
      (∀ k : Int, k ∈ dictKeys d ↔ k ∈ dictKeys init ∨
        ∃ item ∈ items, ∃ ch, entryChapter item = Except.ok (k, ch)) := by
  intro items
  induction items with
  | nil =>
    intro init d h
    cases h
    simp
  | cons item rest ih =>
    intro init d h
    simp only [chaptersOfItems] at h
    cases he : entryChapter item with
    | error e => rw [he] at h; cases h
    | ok p =>
      rw [he] at h
      obtain ⟨ihnd, ihmem⟩ := ih (dictInsert p.1 p.2 init) d h
      constructor
      · intro hnd
        exact ihnd (nodup_dictKeys_insert p.1 p.2 init hnd)
      · intro k
        rw [ihmem k, mem_dictKeys_insert]
        constructor
        · rintro ((h1 | rfl) | ⟨it, hit, ch, hch⟩)
          · exact Or.inl h1
          · exact Or.inr ⟨item, List.mem_cons_self item rest, p.2, by rw [he]⟩
          · exact Or.inr ⟨it, List.mem_cons_of_mem item hit, ch, hch⟩
        · rintro (h1 | ⟨it, hit, ch, hch⟩)
          · exact Or.inl (Or.inl h1)
          · rcases List.mem_cons.1 hit with rfl | hit'
            · rw [he] at hch
              have hpe := Except.ok.inj hch
              exact Or.inl (Or.inr (by rw [hpe]))
            · exact Or.inr ⟨it, hit', ch, hch⟩

/-- Claim C5 (amended): after `create_outline`, the keys of the chapters
dict are exactly the (deduplicated) `chapter_number` values of the stored
outline entries — which coincide with `1..len(outline)` precisely when
the generator numbered the entries contiguously from 1, as the fallback
and padding entries do — and every later stage preserves the key set:
`write_chapter` rewrites values only, and no other stage's update touches
`chapters` at all. -/
theorem chapters_key_set :
    (∀ (loads : String → Option Json) (resp : String) (s u : BookState)
      (l : List Json) (d : List (Int × Chapter)),
      create_outline loads resp s = Except.ok u →
      u.outline = some l → u.chapters = some d →
      (dictKeys d).Nodup ∧
      (∀ k : Int, k ∈ dictKeys d ↔
        ∃ item ∈ l, ∃ ch, entryChapter item = Except.ok (k, ch))) ∧
    (∀ (resp : String) (s : BookState) (p : BookState × BookState)
      (d : List (Int × Chapter)),
      write_chapter resp s = Except.ok p → s.chapters = some d →
      (∀ d', p.1.chapters = some d' → dictKeys d' = dictKeys d) ∧
      (∀ d', p.2.chapters = some d' → dictKeys d' = dictKeys d)) ∧
    (∀ (resp : String) (s u : BookState),
      review_and_edit resp s = Except.ok u → u.chapters = none) ∧
    (∀ s u : BookState, export_feedback s = Except.ok u →
      u.chapters = none) ∧
    (∀ s u : BookState, export_book s = Except.ok u → u.chapters = none) ∧
    (∀ (loads : String → Option Json) (resp : String) (s u : BookState),
      get_book_info loads resp s = Except.ok u → u.chapters = none) := by
  refine ⟨?_, ?_, ?_, ?_, ?_, ?_⟩
  · intro loads resp s u l d h hl hd
    simp only [create_outline] at h
    split at h
    · split at h
      · split at h
        · rename_i chapters hchap
          cases h
          cases Option.some.inj hd
          obtain ⟨hnd, hmem⟩ := chaptersOfItems_keys _ _ _ hchap
          refine ⟨hnd (by simp [dictKeys]), ?_⟩
          intro k
          rw [hmem k]
          have hll := Option.some.inj hl
          simp [dictKeys, hll]
        · cases h
      · cases h
    · cases h
  · intro resp s p d h hd
    simp only [write_chapter] at h
    split at h
    · rename_i current chapters hc hch
      rw [hd] at hch
      cases Option.some.inj hch
      split at h
      · cases h
        constructor
        · intro d' hd'
          cases hd'
        · intro d' hd'
          rw [hd] at hd'
          cases Option.some.inj hd'
          rfl
      · split at h
        · cases h
        · split at h
          · cases h
            exact ⟨fun d' hd' => by
                cases Option.some.inj hd'
                exact dictKeys_setContent _ _ _,
              fun d' hd' => by
                cases Option.some.inj hd'
                exact dictKeys_setContent _ _ _⟩
          · cases h
    · cases h
  · intro resp s u h
    simp only [review_and_edit] at h
    split at h
    · cases h; rfl
    · cases h
  · intro s u h
    simp only [export_feedback] at h
    split at h
    · cases h
    · split at h
      · split at h
        · cases h
        · cases h; rfl
      · cases h
  · intro s u h
    simp only [export_book] at h
    split at h
    · split at h
      · cases h; rfl
      · cases h
    · cases h
  · intro loads resp s u h
    simp only [get_book_info] at h
    split at h
    · cases h; rfl
    · cases h

/-- Counterexample for C5 as stated: an outline numbered 2..6 yields the
key set `{2,...,6}`, not `1..len(outline) = 1..5`. -/
theorem chapters_keys_not_one_based :
    (create_outline loadsShifted "OUT" sInfo).map
        (fun u => (u.chapters.map dictKeys, u.outline.map List.length)) =
      Except.ok (some [2, 3, 4, 5, 6], some 5) ∧
    (1 : Int) ∉ ([2, 3, 4, 5, 6] : List Int) :=
  ⟨rfl, by decide⟩

/-- Witness for the amended C5: distinct keys after `create_outline` on a
concrete run, and key preservation by a concrete `write_chapter` call. -/
theorem chapters_key_set_witness :
    (dictKeys (uOut2.chapters.getD [])).Nodup ∧
    (∀ d', pWrite1.1.chapters = some d' →
      dictKeys d' = dictKeys
        [(1, { title := "C1", description := "D1", content := "" })]) :=
  ⟨(chapters_key_set.1 loads2 "OUT" sInfo uOut2
      (ents2 ++ padEntries "Tema" 2) (uOut2.chapters.getD [])
      rfl rfl rfl).1,
   (chapters_key_set.2.1 "BODY" sOneChapter pWrite1
      [(1, { title := "C1", description := "D1", content := "" })]
      rfl rfl).1⟩

/-! Infrastructure for the termination proof (claim C1). -/

/-- One engine iteration that executes a stage. -/
theorem run_step (loads : String → Option Json) (gen : Nat → String)
    (fuel k : Nat) (s s' : BookState) (next : String)
    (h1 : router s = Except.ok next) (h2 : ¬(next = END))
    (h3 : exec_stage loads next (gen k) s = Except.ok s') :
    run loads gen (fuel + 1) k s =
      (run loads gen fuel (k + 1) s').prepend next := by
  simp only [run, h1, h3]
  rw [if_neg h2]

/-- The engine iteration that hits `END`. -/
theorem run_end (loads : String → Option Json) (gen : Nat → String)
    (fuel k : Nat) (s : BookState) (h1 : router s = Except.ok END) :
    run loads gen (fuel + 1) k s = RunOutcome.finished s [] := by
  simp only [run, h1]
  simp

/-- Prepending a block of stage names onto a normally-finished outcome. -/
theorem prependAll_finished (names : List String) (f : BookState)
    (tr : List String) :
    RunOutcome.prependAll names (RunOutcome.finished f tr) =
      RunOutcome.finished f (names ++ tr) := by
  induction names with
  | nil => rfl
  | cons a l ih =>
    simp only [RunOutcome.prependAll, List.foldr] at ih ⊢
    rw [ih]
    rfl

/-- `exec_stage` dispatch, stage by stage. -/
theorem exec_stage_write (loads : String → Option Json) (resp : String)
    (s : BookState) :
    exec_stage loads "write_chapter" resp s =
      (write_chapter resp s).map (fun p => merge p.2 p.1) := rfl

/-- Every update `get_book_info` returns has exactly the five
collected fields. -/
theorem get_book_info_shape (loads : String → Option Json) (resp : String)
    (s u : BookState) (h : get_book_info loads resp s = Except.ok u) :
    ∃ th tJ, u =
      { theme := some th
        genre := some (s.genre.getD "Ficção")
        target_audience := some (s.target_audience.getD "Adultos")
        title := some tJ
        status := some "book_info_collected" } := by
  simp only [get_book_info] at h
  split at h
  · cases h
    exact ⟨_, _, rfl⟩
  · cases h

/-- Every update `create_outline` returns has exactly the four outline
fields. -/
theorem create_outline_shape (loads : String → Option Json) (resp : String)
    (s u : BookState) (h : create_outline loads resp s = Except.ok u) :
    ∃ l d, u =
      { outline := some l
        chapters := some d
        current_chapter := some 1
        status := some "outline_created" } := by
  simp only [create_outline] at h
  split at h
  · split at h
    · split at h
      · cases h
        exact ⟨_, _, rfl⟩
      · cases h
    · cases h
  · cases h

/-- A key present in the key list can be looked up. -/
theorem dictLookup_mem (k : Int) (d : List (Int × Chapter))
    (h : k ∈ dictKeys d) : ∃ ch, dictLookup k d = some ch := by
  induction d with
  | nil => simp [dictKeys] at h
  | cons p rest ih =>
    by_cases hpk : p.1 = k
    · exact ⟨p.2, by simp [dictLookup, List.find?, hpk]⟩
    · have hr : k ∈ dictKeys rest := by
        rcases List.mem_cons.1 h with h1 | h1
        · exact absurd h1.symm hpk
        · exact h1
      obtain ⟨ch, hch⟩ := ih hr
      refine ⟨ch, ?_⟩
      simp only [dictLookup, List.find?, decide_eq_false hpk]
      exact hch

/-- Setting a chapter's content preserves the dict size. -/
theorem length_setContent (k : Int) (c : String)
    (d : List (Int × Chapter)) :
    (dictSetContent k c d).length = d.length := by
  simp [dictSetContent]

/-- The bounded form of the key-coverage hypothesis implies the
unbounded one. -/
theorem keys_cover_of_range (d : List (Int × Chapter))
    (h : ∀ j ∈ (List.range' 1 d.length).map (fun i : Nat => (i : Int)),
      j ∈ dictKeys d) :
    ∀ j : Int, 1 ≤ j → j ≤ (d.length : Int) → j ∈ dictKeys d := by
  intro j h1 h2
  apply h
  rw [List.mem_map]
  refine ⟨j.toNat, ?_, by omega⟩
  rw [List.mem_range'_1]
  omega

/-- The chapter loop: starting with the cursor `m` chapters away from
completion, the engine executes `write_chapter` exactly `m` times and
reaches the `all_chapters_written` state, touching nothing but
`chapters`, `current_chapter` and `status`. -/
theorem run_write_loop :
    ∀ (m : Nat) (loads : String → Option Json) (gen : Nat → String)
      (fuel k : Nat) (s : BookState) (d : List (Int × Chapter)) (c : Int)
      (tJ : Json) (th g a : String),
      (s.status = some "outline_created" ∨
        s.status = some "chapter_written") →
      s.chapters = some d → s.current_chapter = some c →
      s.title = some tJ → s.theme = some th → s.genre = some g →
      s.target_audience = some a →
      (∀ j : Int, 1 ≤ j → j ≤ (d.length : Int) → j ∈ dictKeys d) →
      1 ≤ c → c + (m : Int) = (d.length : Int) + 1 → 1 ≤ m →
      ∃ d' : List (Int × Chapter),
        d'.length = d.length ∧ dictKeys d' = dictKeys d ∧
        run loads gen (fuel + m) k s =
          RunOutcome.prependAll (List.replicate m "write_chapter")
            (run loads gen fuel (k + m)
              { s with chapters := some d'
                       current_chapter := some ((d.length : Int) + 1)
                       status := some "all_chapters_written" }) := by
  intro m
  induction m with
  | zero =>
    intro loads gen fuel k s d c tJ th g a _ _ _ _ _ _ _ _ _ _ h7
    omega
  | succ m ih =>
    intro loads gen fuel k s d c tJ th g a h1 h2 h3 hti hth hg ha h4 h5 h6 _
    have hroute : router s = Except.ok "write_chapter" := by
      rcases h1 with h1 | h1 <;> rw [router_eval s _ h1] <;> rfl
    have hcn : c ≤ (d.length : Int) := by omega
    obtain ⟨ch, hch⟩ := dictLookup_mem c d (h4 c h5 hcn)
    have hexec : exec_stage loads "write_chapter" (gen k) s = Except.ok
        { s with
            chapters := some (dictSetContent c (gen k) d)
            current_chapter := some (c + 1)
            status := some (if c + 1 ≤ (d.length : Int)
              then "chapter_written" else "all_chapters_written") } := by
      rw [exec_stage_write]
      simp only [write_chapter, h3, h2, hti, hth, hg, ha]
      rw [if_neg (by omega : ¬ ((d.length : Int) < c)), hch]
      rfl
    rcases Nat.eq_zero_or_pos m with hm | hm
    · subst hm
      have hc : c = (d.length : Int) := by omega
      refine ⟨dictSetContent c (gen k) d, length_setContent c (gen k) d,
        dictKeys_setContent c (gen k) d, ?_⟩
      have hif : (if c + 1 ≤ (d.length : Int) then "chapter_written"
          else "all_chapters_written") = "all_chapters_written" :=
        if_neg (by omega)
      rw [hif] at hexec
      have hstep := run_step loads gen fuel k s _ "write_chapter" hroute
        (by decide) hexec
      rw [hstep, hc]
      rfl
    · have hif : (if c + 1 ≤ (d.length : Int) then "chapter_written"
          else "all_chapters_written") = "chapter_written" :=
        if_pos (by omega)
      rw [hif] at hexec
      obtain ⟨d₂, hl₂, hk₂, hrun₂⟩ := ih loads gen fuel (k + 1)
        { s with
            chapters := some (dictSetContent c (gen k) d)
            current_chapter := some (c + 1)
            status := some "chapter_written" }
        (dictSetContent c (gen k) d) (c + 1) tJ th g a
        (Or.inr rfl) rfl rfl hti hth hg ha
        (by
          intro j hj1 hj2
          rw [dictKeys_setContent]
          apply h4 j hj1
          rw [length_setContent] at hj2
          exact hj2)
        (by omega)
        (by
          rw [length_setContent]
          omega)
        hm
      refine ⟨d₂, by rw [hl₂, length_setContent],
        by rw [hk₂, dictKeys_setContent], ?_⟩
      have hstep := run_step loads gen (fuel + m) k s _ "write_chapter"
        hroute (by decide) hexec
      rw [show fuel + (m + 1) = (fuel + m) + 1 from by omega]
      rw [hstep, hrun₂]
      rw [show k + 1 + m = k + (m + 1) from by omega]
      rw [show ((dictSetContent c (gen k) d).length : Int) = (d.length : Int)
        from by rw [length_setContent]]
      rfl

/-- The tail of the pipeline: from `all_chapters_written` the engine
executes review, feedback export and book export once each and stops at
`END` with status `exported`. -/
theorem run_tail :
    ∀ (loads : String → Option Json) (gen : Nat → String) (fuel k : Nat)
      (s : BookState) (th g a t : String) (dc : List (Int × Chapter)),
      s.status = some "all_chapters_written" →
      s.theme = some th → s.title = some (Json.str t) →
      s.genre = some g → s.target_audience = some a →
      s.chapters = some dc →
      ∃ f : BookState,
        run loads gen (fuel + 4) k s =
          RunOutcome.finished f
            ["review_and_edit", "export_feedback", "export_book"] ∧
        f.status = some "exported" := by
  intro loads gen fuel k s th g a t dc hst hth hti hg ha hch
  have hrev : exec_stage loads "review_and_edit" (gen k) s =
      Except.ok (merge s
        { feedback := some (gen k), status := some "reviewed" }) := by
    rw [show exec_stage loads "review_and_edit" (gen k) s =
      (review_and_edit (gen k) s).map (merge s) from rfl]
    simp only [review_and_edit, hth, hti, hg, ha, hch]
    rfl
  have hstep1 := run_step loads gen (fuel + 3) k s
    (merge s { feedback := some (gen k), status := some "reviewed" })
    "review_and_edit"
    (by rw [router_eval s "all_chapters_written" hst]; rfl)
    (by decide) hrev
  have hef0 : export_feedback
      (merge s { feedback := some (gen k), status := some "reviewed" }) =
      Except.ok
        { feedback_path :=
            some (pyReplaceChar t ' ' '_' ++ "_feedback.txt")
          status := some "feedback_exported" } := by
    simp only [export_feedback, merge, mergeField, hti]
  have hstep2 := run_step loads gen (fuel + 2) (k + 1)
    (merge s { feedback := some (gen k), status := some "reviewed" })
    (merge (merge s { feedback := some (gen k), status := some "reviewed" })
      { feedback_path :=
          some (pyReplaceChar t ' ' '_' ++ "_feedback.txt")
        status := some "feedback_exported" })
    "export_feedback"
    (by
      rw [router_eval
        (merge s { feedback := some (gen k), status := some "reviewed" })
        "reviewed" rfl]
      rfl)
    (by decide)
    (by
      rw [show exec_stage loads "export_feedback" (gen (k + 1))
          (merge s { feedback := some (gen k), status := some "reviewed" }) =
        (export_feedback
          (merge s { feedback := some (gen k), status := some "reviewed" })).map
          (merge (merge s
            { feedback := some (gen k), status := some "reviewed" }))
        from rfl, hef0]
      rfl)
  have heb0 : export_book
      (merge (merge s { feedback := some (gen k), status := some "reviewed" })
        { feedback_path :=
            some (pyReplaceChar t ' ' '_' ++ "_feedback.txt")
          status := some "feedback_exported" }) =
      Except.ok
        { export_path := some (pyReplaceChar t ' ' '_' ++ ".docx")
          status := some "exported" } := by
    simp only [export_book, merge, mergeField, hti, hth, hg, ha, hch]
  have hstep3 := run_step loads gen (fuel + 1) (k + 1 + 1)
    (merge (merge s { feedback := some (gen k), status := some "reviewed" })
      { feedback_path :=
          some (pyReplaceChar t ' ' '_' ++ "_feedback.txt")
        status := some "feedback_exported" })
    (merge
      (merge (merge s { feedback := some (gen k), status := some "reviewed" })
        { feedback_path :=
            some (pyReplaceChar t ' ' '_' ++ "_feedback.txt")
          status := some "feedback_exported" })
      { export_path := some (pyReplaceChar t ' ' '_' ++ ".docx")
        status := some "exported" })
    "export_book"
    (by
      rw [router_eval _ "feedback_exported" rfl]
      rfl)
    (by decide)
    (by
      rw [show exec_stage loads "export_book" (gen (k + 1 + 1))
          (merge (merge s
            { feedback := some (gen k), status := some "reviewed" })
            { feedback_path :=
                some (pyReplaceChar t ' ' '_' ++ "_feedback.txt")
              status := some "feedback_exported" }) =
        (export_book
          (merge (merge s
            { feedback := some (gen k), status := some "reviewed" })
            { feedback_path :=
                some (pyReplaceChar t ' ' '_' ++ "_feedback.txt")
              status := some "feedback_exported" })).map
          (merge (merge (merge s
            { feedback := some (gen k), status := some "reviewed" })
            { feedback_path :=
                some (pyReplaceChar t ' ' '_' ++ "_feedback.txt")
              status := some "feedback_exported" }))
        from rfl, heb0]
      rfl)
  have hend := run_end loads gen fuel (k + 1 + 1 + 1)
    (merge
      (merge (merge s { feedback := some (gen k), status := some "reviewed" })
        { feedback_path :=
            some (pyReplaceChar t ' ' '_' ++ "_feedback.txt")
          status := some "feedback_exported" })
      { export_path := some (pyReplaceChar t ' ' '_' ++ ".docx")
        status := some "exported" })
    (by
      rw [router_eval _ "exported" rfl]
      rfl)
  refine ⟨_, ?_, (rfl :
    (merge
      (merge (merge s { feedback := some (gen k), status := some "reviewed" })
        { feedback_path :=
            some (pyReplaceChar t ' ' '_' ++ "_feedback.txt")
          status := some "feedback_exported" })
      { export_path := some (pyReplaceChar t ' ' '_' ++ ".docx")
        status := some "exported" }).status = some "exported")⟩
  rw [show fuel + 4 = fuel + 3 + 1 from by omega, hstep1,
    show fuel + 3 = fuel + 2 + 1 from by omega, hstep2,
    show fuel + 2 = fuel + 1 + 1 from by omega, hstep3, hend]
  rfl

/-- Claim C1 (amended): for every initial state with status `start` and
every generator scripting whose collected title is a string and whose
outline yields a chapters dict covering the keys `1..len(chapters)` —
which includes every output that follows the prompts' numbering and both
fallback paths — the engine reaches status `exported` and then `END`
after exactly `len(chapters) + 5` stage executions: one each of
`get_book_info`, `create_outline`, `review_and_edit`, `export_feedback`
and `export_book`, and exactly `len(chapters)` of `write_chapter`. -/
theorem pipeline_reaches_exported :
    ∀ (loads : String → Option Json) (gen : Nat → String)
      (s0 u0 u1 : BookState) (t : String) (d : List (Int × Chapter)),
      s0.status = some "start" →
      get_book_info loads (gen 0) s0 = Except.ok u0 →
      u0.title = some (Json.str t) →
      create_outline loads (gen 1) (merge s0 u0) = Except.ok u1 →
      u1.chapters = some d →
      (∀ j ∈ (List.range' 1 d.length).map (fun i : Nat => (i : Int)),
        j ∈ dictKeys d) →
      1 ≤ d.length →
      FinishedAt (run loads gen (d.length + 6) 0 s0) "exported"
        (["get_book_info", "create_outline"] ++
         List.replicate d.length "write_chapter" ++
         ["review_and_edit", "export_feedback", "export_book"]) := by
  intro loads gen s0 u0 u1 t d h0 hinfo htitle houtline hchap hkeysR hn
  obtain ⟨th, tJ, hu0⟩ := get_book_info_shape _ _ _ _ hinfo
  have htJ : tJ = Json.str t := by
    rw [hu0] at htitle
    exact Option.some.inj htitle
  subst htJ
  obtain ⟨l, d₀, hu1⟩ := create_outline_shape _ _ _ _ houtline
  have hd₀ : d₀ = d := by
    rw [hu1] at hchap
    exact Option.some.inj hchap
  rw [hd₀] at hu1
  subst hu0
  subst hu1
  have hstep1 := run_step loads gen (d.length + 5) 0 s0
    (merge s0
      { theme := some th
        genre := some (s0.genre.getD "Ficção")
        target_audience := some (s0.target_audience.getD "Adultos")
        title := some (Json.str t)
        status := some "book_info_collected" })
    "get_book_info"
    (by rw [router_eval s0 "start" h0]; rfl)
    (by decide)
    (by
      rw [show exec_stage loads "get_book_info" (gen 0) s0 =
        (get_book_info loads (gen 0) s0).map (merge s0) from rfl, hinfo]
      rfl)
  have hstep2 := run_step loads gen (d.length + 4) 1
    (merge s0
      { theme := some th
        genre := some (s0.genre.getD "Ficção")
        target_audience := some (s0.target_audience.getD "Adultos")
        title := some (Json.str t)
        status := some "book_info_collected" })
    (merge
      (merge s0
        { theme := some th
          genre := some (s0.genre.getD "Ficção")
          target_audience := some (s0.target_audience.getD "Adultos")
          title := some (Json.str t)
          status := some "book_info_collected" })
      { outline := some l
        chapters := some d
        current_chapter := some 1
        status := some "outline_created" })
    "create_outline"
    (by rw [router_eval _ "book_info_collected" rfl]; rfl)
    (by decide)
    (by
      rw [show exec_stage loads "create_outline" (gen 1)
          (merge s0
            { theme := some th
              genre := some (s0.genre.getD "Ficção")
              target_audience := some (s0.target_audience.getD "Adultos")
              title := some (Json.str t)
              status := some "book_info_collected" }) =
        (create_outline loads (gen 1)
          (merge s0
            { theme := some th
              genre := some (s0.genre.getD "Ficção")
              target_audience := some (s0.target_audience.getD "Adultos")
              title := some (Json.str t)
              status := some "book_info_collected" })).map
          (merge (merge s0
            { theme := some th
              genre := some (s0.genre.getD "Ficção")
              target_audience := some (s0.target_audience.getD "Adultos")
              title := some (Json.str t)
              status := some "book_info_collected" }))
        from rfl, houtline]
      rfl)
  obtain ⟨d', hl', hk', hrun'⟩ := run_write_loop d.length loads gen 4 2
    (merge
      (merge s0
        { theme := some th
          genre := some (s0.genre.getD "Ficção")
          target_audience := some (s0.target_audience.getD "Adultos")
          title := some (Json.str t)
          status := some "book_info_collected" })
      { outline := some l
        chapters := some d
        current_chapter := some 1
        status := some "outline_created" })
    d 1 (Json.str t) th (s0.genre.getD "Ficção")
    (s0.target_audience.getD "Adultos")
    (Or.inl rfl) rfl rfl rfl rfl rfl rfl
    (keys_cover_of_range d hkeysR)
    (by omega) (by omega) hn
  obtain ⟨f, htail, hf⟩ := run_tail loads gen 0 (2 + d.length)
    { merge
        (merge s0
          { theme := some th
            genre := some (s0.genre.getD "Ficção")
            target_audience := some (s0.target_audience.getD "Adultos")
            title := some (Json.str t)
            status := some "book_info_collected" })
        { outline := some l
          chapters := some d
          current_chapter := some 1
          status := some "outline_created" } with
      chapters := some d'
      current_chapter := some ((d.length : Int) + 1)
      status := some "all_chapters_written" }
    th (s0.genre.getD "Ficção") (s0.target_audience.getD "Adultos") t d'
    rfl rfl rfl rfl rfl rfl
  rw [show (0 : Nat) + 4 = 4 from rfl] at htail
  rw [show d.length + 6 = d.length + 5 + 1 from by omega, hstep1,
    show d.length + 5 = d.length + 4 + 1 from by omega, hstep2,
    show d.length + 4 = 4 + d.length from by omega, hrun', htail,
    prependAll_finished]
  refine ⟨hf, ?_⟩
  simp

/-- Witness for the amended C1: the all-fallback run (five chapters)
finishes at `exported` with the exact 10-stage trace. -/
theorem pipeline_reaches_exported_witness :
    FinishedAt (run loadsNone genX (dFall.length + 6) 0 sStart) "exported"
      (["get_book_info", "create_outline"] ++
       List.replicate dFall.length "write_chapter" ++
       ["review_and_edit", "export_feedback", "export_book"]) :=
  pipeline_reaches_exported loadsNone genX sStart uInfo uOutFall
    "Livro sobre Energia Solar" dFall rfl rfl rfl rfl rfl
    (by decide) (by decide)

/-- Counterexample for C1 as stated: with the producible outline numbered
2..6 the run raises `KeyError` at the first `write_chapter` and never
reaches `exported`. -/
theorem pipeline_stuck_on_shifted_outline :
    run loadsShifted genShifted 20 0 sStart =
      RunOutcome.failed PyErr.keyError
        ["get_book_info", "create_outline", "write_chapter"] := rfl

end BookGen
